import Mathlib

/-!
Verification of the Earthquake Impact Checker (src/main.py) against its
natural-language specification.

Python floats are modelled as rationals; the Python builtin round (which
rounds half to even) is modelled by round_half_even below.  The geodesic
distance comes from an external library (geopy), so the query operation is
parameterised by an arbitrary distance function.
-/

/-- Rounding of a rational to the nearest integer, rounding halves to the
even integer: the behaviour of the Python builtin round. -/
def round_half_even (x : ℚ) : ℤ :=
  if x - ⌊x⌋ < 1/2 then ⌊x⌋
  else if 1/2 < x - ⌊x⌋ then ⌊x⌋ + 1
  else if 2 ∣ ⌊x⌋ then ⌊x⌋ else ⌊x⌋ + 1

/-- Rounding to one decimal place, as in round(x, 1) in main.py. -/
def round1 (x : ℚ) : ℚ := (round_half_even (x * 10) : ℚ) / 10

/-- One feature of the earthquake feed: properties.mag (float or null),
properties.place, and geometry.coordinates = [longitude, latitude, depth]. -/
structure Feature where
  mag : Option ℚ
  place : String
  lon : ℚ
  lat : ℚ
  depth : ℚ
deriving DecidableEq, Repr

/-- impact_score from main.py lines 28-49: building factor 0/1/2 with
default 0, stepped distance factor, score = magnitude * 4 + building_factor
+ distance_factor, rounded to 1 decimal. -/
def impact_score (magnitude distance_km : ℚ) (building_type : String) : ℚ :=
  let building_factor : ℚ :=
    if building_type = "house" then 0
    else if building_type = "apartment" then 1
    else if building_type = "old_building" then 2
    else 0
  let distance_factor : ℚ :=
    if distance_km < 10 then 10
    else if distance_km < 50 then 7
    else if distance_km < 100 then 5
    else if distance_km < 200 then 3
    else 0
  round1 (magnitude * 4 + building_factor + distance_factor)

/-- impact_level from main.py lines 52-58. -/
def impact_level (score : ℚ) : String :=
  if score < 20 then "Low"
  else if score < 45 then "Medium"
  else "High"

/-- felt_intensity from main.py lines 61-67. -/
def felt_intensity (score : ℚ) : String :=
  if score < 20 then "Barely felt"
  else if score < 45 then "Strong shaking possible"
  else "Potential damage"

/-- confidence_statement from main.py lines 70-76. -/
def confidence_statement (score : ℚ) : String :=
  if score < 10 then "You are very unlikely to notice any earthquake activity."
  else if score < 30 then "Some people may feel light shaking."
  else "There is a realistic chance of noticeable shaking."

/-- The candidate-collection loop of main.py lines 97-108: for each feature,
skip it when the magnitude is null or below 3; otherwise compute the geodesic
distance from the query point to the feature and keep the pair when the
distance is below 1000 km.  D is the external geodesic distance function,
applied as geodesic((lat, lon), (q_lat, q_lon)). -/
def nearby_quakes (D : ℚ × ℚ → ℚ × ℚ → ℚ) (lat lon : ℚ)
    (features : List Feature) : List (Feature × ℚ) :=
  features.filterMap fun q =>
    match q.mag with
    | none => none
    | some m =>
      if m < 3 then none
      else
        let dist := D (lat, lon) (q.lat, q.lon)
        if dist < 1000 then some (q, dist) else none

/-- Accumulator form of the Python builtin min with a key function: the
current best is replaced only when a strictly smaller key appears, so the
first element attaining the minimum wins. -/
def min_by_key (key : α → ℚ) : α → List α → α
  | best, [] => best
  | best, x :: xs => min_by_key key (if key x < key best then x else best) xs

/-- The Python builtin min with a key function, as called on line 131 of
main.py; none on the empty list (the code guards that case on line 113). -/
def py_min (key : α → ℚ) : List α → Option α
  | [] => none
  | x :: xs => some (min_by_key key x xs)

/-- The Branch A payload of main.py lines 114-126 (no relevant quake). -/
structure NoQuakeInfo where
  status : String
  level : String
  score : ℚ
  intensity : String
  confidence : String
  why : String
  what_to_do : List String
deriving DecidableEq, Repr

/-- The Branch B payload of main.py lines 139-160 (closest relevant quake). -/
structure QuakeInfo where
  magnitude : Option ℚ
  place : String
  depth_km : ℚ
  latitude : ℚ
  longitude : ℚ
  distance_km : ℚ
  score : ℚ
  level : String
  intensity : String
  confidence : String
  why : String
  what_to_do : List String
deriving DecidableEq, Repr

/-- The three response shapes of the /impact endpoint: an error payload
(a dict with a single error key, returned as a normal response), the
Branch A no-relevant-quake payload, and the Branch B full payload. -/
inductive Response where
  | error (msg : String)
  | branchA (info : NoQuakeInfo)
  | branchB (info : QuakeInfo)
deriving DecidableEq, Repr

/-- The fixed Branch A payload of main.py lines 114-126, returned when no
relevant quake is nearby. -/
def no_quake_info : NoQuakeInfo :=
  { status := "No relevant earthquakes near your location"
    level := "Low"
    score := 0
    intensity := "None"
    confidence := "No earthquake activity near you is expected to be felt."
    why := "No earthquakes of magnitude 3.0+ occurred within 1000 km in the last hour."
    what_to_do := ["No action needed", "Stay informed for future alerts",
      "Ensure general emergency preparedness"] }

/-- check_impact from main.py lines 82-160.  The outbound fetch is modelled
by its outcome: none when requests.get or response.json raises (caught on
line 91), some features otherwise; a missing or empty features list is falsy
in Python and is modelled as the empty list.  D is the external geodesic
distance function. -/
def check_impact (D : ℚ × ℚ → ℚ × ℚ → ℚ) (fetched : Option (List Feature))
    (lat lon : ℚ) (building : String) : Response :=
  match fetched with
  | none => .error "Cannot fetch earthquake data."
  | some features =>
    if features.isEmpty then .error "No earthquake data available"
    else
      match py_min (fun x => x.2) (nearby_quakes D lat lon features) with
      | none => .branchA no_quake_info
      | some (quake, distance_km) =>
        let magnitude := quake.mag.getD 0
        let score := impact_score magnitude distance_km building
        .branchB
          { magnitude := quake.mag
            place := quake.place
            depth_km := |round1 quake.depth|
            latitude := lat
            longitude := lon
            distance_km := round1 distance_km
            score := score
            level := impact_level score
            intensity := felt_intensity score
            confidence := confidence_statement score
            why := "This is the closest significant earthquake to your location."
            what_to_do := ["Stay calm and informed", "Secure loose objects nearby",
              "Check emergency supplies"] }

/-- The routes registered on the FastAPI app: the only route decorator in
main.py is app.get on /impact (line 82); no other operation is exposed. -/
def app_routes : List (String × String) := [("GET", "/impact")]

/-- The building factor of the code written as a standalone table, used to
state the amended scoring claim independently of impact_score. -/
def building_factor_table (b : String) : ℚ :=
  if b = "apartment" then 1 else if b = "old_building" then 2 else 0

/-- The stepped distance factor of the code written from the far band
inward, used to state the amended scoring claim independently of
impact_score. -/
def distance_factor_steps (d : ℚ) : ℚ :=
  if 200 ≤ d then 0
  else if 100 ≤ d then 3
  else if 50 ≤ d then 5
  else if 10 ≤ d then 7
  else 10

/-- A concrete geodesic distance function that reports every pair of points
as 0 km apart (a query placed exactly at the epicentre). -/
def dist_zero : ℚ × ℚ → ℚ × ℚ → ℚ := fun _ _ => 0

/-- A concrete geodesic distance function that reports every pair of points
as 999.96 km apart: inside the 1000 km radius, but rounding to one decimal
reports it as 1000.0. -/
def dist_far : ℚ × ℚ → ℚ × ℚ → ℚ := fun _ _ => 999.96

/-- A concrete feed feature with magnitude 5. -/
def f_demo : Feature :=
  { mag := some 5, place := "Demo", lon := 1, lat := 2, depth := -3.2 }

/-- A concrete feed feature with null magnitude. -/
def f_null : Feature :=
  { mag := none, place := "Null", lon := 0, lat := 0, depth := 0 }

/-- The Branch B payload produced for f_demo queried from its epicentre with
building house: score 30 = round1 of 5 * 4 + 0 + 10. -/
def info_demo : QuakeInfo :=
  { magnitude := some 5, place := "Demo", depth_km := 3.2, latitude := 0, longitude := 0,
    distance_km := 0, score := 30, level := "Medium", intensity := "Strong shaking possible",
    confidence := "There is a realistic chance of noticeable shaking.",
    why := "This is the closest significant earthquake to your location.",
    what_to_do := ["Stay calm and informed", "Secure loose objects nearby",
      "Check emergency supplies"] }

/-- The distance_km field of a Branch B response, when the response is one. -/
def reported_distance : Response → Option ℚ
  | .branchB info => some info.distance_km
  | _ => none

/-! Helper lemmas about the rounding model. -/

lemma round_half_even_bounds (x : ℚ) :
    ⌊x⌋ ≤ round_half_even x ∧ round_half_even x ≤ ⌊x⌋ + 1 := by
  unfold round_half_even
  split
  · omega
  · split
    · omega
    · split <;> omega

lemma le_round1 {x : ℚ} {n : ℤ} (h : (n : ℚ) ≤ x) : (n : ℚ) ≤ round1 x := by
  unfold round1
  have h10 : ((10 * n : ℤ) : ℚ) ≤ x * 10 := by push_cast; linarith
  have hfl : 10 * n ≤ ⌊x * 10⌋ := Int.le_floor.mpr h10
  have hr := (round_half_even_bounds (x * 10)).1
  have : ((10 * n : ℤ) : ℚ) ≤ (round_half_even (x * 10) : ℚ) := by
    exact_mod_cast le_trans hfl hr
  push_cast at this ⊢
  linarith

lemma round1_le {x : ℚ} {n : ℤ} (h : x < (n : ℚ)) : round1 x ≤ (n : ℚ) := by
  unfold round1
  have h10 : x * 10 < ((10 * n : ℤ) : ℚ) := by push_cast; linarith
  have hfl : ⌊x * 10⌋ < 10 * n := Int.floor_lt.mpr h10
  have hr := (round_half_even_bounds (x * 10)).2
  have : (round_half_even (x * 10) : ℚ) ≤ ((10 * n : ℤ) : ℚ) := by
    exact_mod_cast le_trans hr (by omega)
  push_cast at this ⊢
  linarith

/-! Helper lemmas about candidate filtering and the stable minimum. -/

lemma mem_nearby_quakes {D : ℚ × ℚ → ℚ × ℚ → ℚ} {lat lon : ℚ}
    {fs : List Feature} {q : Feature} {d : ℚ} :
    (q, d) ∈ nearby_quakes D lat lon fs ↔
      q ∈ fs ∧ ∃ m, q.mag = some m ∧ 3 ≤ m ∧
        d = D (lat, lon) (q.lat, q.lon) ∧ d < 1000 := by
  unfold nearby_quakes
  rw [List.mem_filterMap]
  constructor
  · rintro ⟨b, hb, hfb⟩
    rcases hm : b.mag with _ | m
    · rw [hm] at hfb; simp at hfb
    · rw [hm] at hfb
      dsimp only at hfb
      by_cases h3 : m < 3
      · rw [if_pos h3] at hfb; simp at hfb
      · rw [if_neg h3] at hfb
        by_cases hd : D (lat, lon) (b.lat, b.lon) < 1000
        · rw [if_pos hd] at hfb
          simp only [Option.some.injEq, Prod.mk.injEq] at hfb
          obtain ⟨hbq, hdd⟩ := hfb
          subst hbq
          exact ⟨hb, m, hm, le_of_not_lt h3, hdd.symm, hdd ▸ hd⟩
        · rw [if_neg hd] at hfb; simp at hfb
  · rintro ⟨hq, m, hm, h3, hd, hlt⟩
    refine ⟨q, hq, ?_⟩
    rw [hm]
    dsimp only
    subst hd
    rw [if_neg (not_lt.mpr h3), if_pos hlt]

lemma min_by_key_split (key : α → ℚ) (best : α) (l : List α) :
    (min_by_key key best l = best ∧ ∀ y ∈ l, key best ≤ key y) ∨
    (∃ l1 x l2, l = l1 ++ x :: l2 ∧ min_by_key key best l = x ∧
      key x < key best ∧ (∀ y ∈ l, key x ≤ key y) ∧ ∀ y ∈ l1, key x < key y) := by
  induction l generalizing best with
  | nil => exact .inl ⟨rfl, by simp⟩
  | cons a as ih =>
    rw [min_by_key]
    by_cases h : key a < key best
    · rw [if_pos h]
      rcases ih a with ⟨heq, hall⟩ | ⟨l1, x, l2, hsplit, heq, hlt, hall, hpre⟩
      · refine .inr ⟨[], a, as, by simp, heq, h, ?_, by simp⟩
        intro y hy
        rcases List.mem_cons.mp hy with hy | hy
        · exact hy ▸ le_refl _
        · exact hall y hy
      · refine .inr ⟨a :: l1, x, l2, by rw [hsplit]; simp, heq, lt_trans hlt h, ?_, ?_⟩
        · intro y hy
          rcases List.mem_cons.mp hy with hy | hy
          · exact hy ▸ le_of_lt hlt
          · exact hall y hy
        · intro y hy
          rcases List.mem_cons.mp hy with hy | hy
          · exact hy ▸ hlt
          · exact hpre y hy
    · rw [if_neg h]
      push_neg at h
      rcases ih best with ⟨heq, hall⟩ | ⟨l1, x, l2, hsplit, heq, hlt, hall, hpre⟩
      · refine .inl ⟨heq, ?_⟩
        intro y hy
        rcases List.mem_cons.mp hy with hy | hy
        · exact hy ▸ h
        · exact hall y hy
      · refine .inr ⟨a :: l1, x, l2, by rw [hsplit]; simp, heq, hlt, ?_, ?_⟩
        · intro y hy
          rcases List.mem_cons.mp hy with hy | hy
          · exact hy ▸ le_trans (le_of_lt hlt) h
          · exact hall y hy
        · intro y hy
          rcases List.mem_cons.mp hy with hy | hy
          · exact hy ▸ lt_of_lt_of_le hlt h
          · exact hpre y hy

lemma min_by_key_mem (key : α → ℚ) (best : α) (l : List α) :
    min_by_key key best l = best ∨ min_by_key key best l ∈ l := by
  induction l generalizing best with
  | nil => exact .inl rfl
  | cons a as ih =>
    rw [min_by_key]
    split
    · rcases ih a with h | h
      · right; rw [h]; exact List.mem_cons_self a as
      · exact .inr (List.mem_cons_of_mem a h)
    · rcases ih best with h | h
      · exact .inl h
      · exact .inr (List.mem_cons_of_mem a h)

lemma py_min_mem {key : α → ℚ} {l : List α} {c : α}
    (h : py_min key l = some c) : c ∈ l := by
  cases l with
  | nil => simp [py_min] at h
  | cons a as =>
    rw [py_min, Option.some.injEq] at h
    rcases min_by_key_mem key a as with h' | h'
    · exact (h ▸ h') ▸ List.mem_cons_self a as
    · exact List.mem_cons_of_mem a (h ▸ h')

/-! Claim theorems. -/

lemma le_round1_of_le {s : ℚ} (hs : 12 ≤ s) : (12 : ℚ) ≤ round1 s := by
  have := le_round1 (x := s) (n := 12) (by exact_mod_cast hs)
  exact_mod_cast this

/-- C1: counterexample.  The spec formula predicts a score of 70 for
magnitude 6.0 at distance 0 km in a house, but impact_score in main.py
computes 6 * 4 + 0 + 10 = 34. -/
theorem c1_counterexample :
    impact_score 6 0 "house" = 34 ∧ impact_score 6 0 "house" ≠ 70 := by
  constructor <;> norm_num [impact_score, round1, round_half_even]

/-- C1 (amended): the impact score is magnitude * 4 plus a stepped distance
factor (10 below 10 km, 7 below 50 km, 5 below 100 km, 3 below 200 km, else
0) plus the building factor (house 0, apartment 1, old_building 2, default
0), rounded to 1 decimal; for magnitude 6.0 at distance 0 km in a house the
score is 34. -/
theorem c1_score_formula (m d : ℚ) (b : String) :
    impact_score m d b =
      round1 (m * 4 + distance_factor_steps d + building_factor_table b) ∧
    impact_score 6 0 "house" = 34 := by
  refine ⟨?_, by norm_num [impact_score, round1, round_half_even]⟩
  simp only [impact_score, building_factor_table, distance_factor_steps]
  congr 1
  have hb : (if b = "house" then (0:ℚ)
      else if b = "apartment" then 1 else if b = "old_building" then 2 else 0) =
      if b = "apartment" then (1:ℚ) else if b = "old_building" then 2 else 0 := by
    by_cases h : b = "house"
    · subst h
      rw [if_pos rfl, if_neg (by decide), if_neg (by decide)]
    · rw [if_neg h]
  rw [hb]
  split_ifs <;> linarith

/-- C2: counterexample.  The spec thresholds 30 and 60 do not match the
code: a score of 25 (below 30, so Low with label Barely felt per the claim)
is classified Medium with label Strong shaking possible by main.py. -/
theorem c2_counterexample :
    (25 : ℚ) < 30 ∧ impact_level 25 = "Medium" ∧ impact_level 25 ≠ "Low" ∧
      felt_intensity 25 = "Strong shaking possible" ∧
      felt_intensity 25 ≠ "Barely felt" := by
  have hl : impact_level 25 = "Medium" := by norm_num [impact_level]
  have hf : felt_intensity 25 = "Strong shaking possible" := by norm_num [felt_intensity]
  exact ⟨by norm_num, hl, by rw [hl]; decide, hf, by rw [hf]; decide⟩

/-- C2 (amended): impact_level is Low below 20, Medium from 20 up to but
excluding 45, High from 45; felt_intensity is Barely felt below 20, Strong
shaking possible from 20 up to but excluding 45, Potential damage from 45;
boundaries are inclusive upward, so a score of exactly 20 is Medium. -/
theorem c2_thresholds (s : ℚ) :
    (s < 20 → impact_level s = "Low" ∧ felt_intensity s = "Barely felt") ∧
    (20 ≤ s → s < 45 →
      impact_level s = "Medium" ∧ felt_intensity s = "Strong shaking possible") ∧
    (45 ≤ s → impact_level s = "High" ∧ felt_intensity s = "Potential damage") := by
  unfold impact_level felt_intensity
  refine ⟨fun h => ?_, fun h1 h2 => ?_, fun h => ?_⟩
  · rw [if_pos h, if_pos h]
    exact ⟨rfl, rfl⟩
  · rw [if_neg (by linarith), if_pos h2, if_neg (by linarith), if_pos h2]
    exact ⟨rfl, rfl⟩
  · rw [if_neg (by linarith), if_neg (by linarith), if_neg (by linarith),
      if_neg (by linarith)]
    exact ⟨rfl, rfl⟩

/-- C2 witness: the boundary score 20 classifies as Medium with label
Strong shaking possible. -/
theorem c2_thresholds_witness :
    (20 : ℚ) ≤ 20 ∧ (20 : ℚ) < 45 ∧ impact_level 20 = "Medium" ∧
      felt_intensity 20 = "Strong shaking possible" := by
  have h := (c2_thresholds 20).2.1 (by norm_num) (by norm_num)
  exact ⟨by norm_num, by norm_num, h.1, h.2⟩

/-- C7: counterexample.  The spec thresholds 10 and 50 do not match the
code: at score 40 (between 10 and 50, so the middle statement per the
claim) main.py already returns the realistic-chance statement. -/
theorem c7_counterexample :
    (10 : ℚ) ≤ 40 ∧ (40 : ℚ) < 50 ∧
      confidence_statement 40 = "There is a realistic chance of noticeable shaking." ∧
      confidence_statement 40 ≠ "Some people may feel light shaking." := by
  have hc : confidence_statement 40 = "There is a realistic chance of noticeable shaking." := by
    norm_num [confidence_statement]
  exact ⟨by norm_num, by norm_num, hc, by rw [hc]; decide⟩

/-- C7 (amended): the confidence statement is the very-unlikely text below
10, the some-people text from 10 up to but excluding 30, and the
realistic-chance text from 30. -/
theorem c7_confidence_thresholds (s : ℚ) :
    (s < 10 →
      confidence_statement s = "You are very unlikely to notice any earthquake activity.") ∧
    (10 ≤ s → s < 30 →
      confidence_statement s = "Some people may feel light shaking.") ∧
    (30 ≤ s →
      confidence_statement s = "There is a realistic chance of noticeable shaking.") := by
  unfold confidence_statement
  refine ⟨fun h => if_pos h, fun h1 h2 => ?_, fun h => ?_⟩
  · rw [if_neg (by linarith), if_pos h2]
  · rw [if_neg (by linarith), if_neg (by linarith)]

/-- C7 witness: at score 15 the middle statement is returned. -/
theorem c7_witness :
    (10 : ℚ) ≤ 15 ∧ (15 : ℚ) < 30 ∧
      confidence_statement 15 = "Some people may feel light shaking." :=
  ⟨by norm_num, by norm_num, (c7_confidence_thresholds 15).2.1 (by norm_num) (by norm_num)⟩

/-- C8: an unrecognized building category silently gets the house factor 0:
the score and the whole query response are the same as for house, all else
equal. -/
theorem c8_building_fallback (D : ℚ × ℚ → ℚ × ℚ → ℚ) (fetched : Option (List Feature))
    (lat lon m d : ℚ) (b : String)
    (h1 : b ≠ "house") (h2 : b ≠ "apartment") (h3 : b ≠ "old_building") :
    impact_score m d b = impact_score m d "house" ∧
    check_impact D fetched lat lon b = check_impact D fetched lat lon "house" := by
  have hscore : ∀ m' d' : ℚ, impact_score m' d' b = impact_score m' d' "house" := by
    intro m' d'
    unfold impact_score
    rw [if_neg h1, if_neg h2, if_neg h3, if_pos rfl]
  refine ⟨hscore m d, ?_⟩
  cases fetched with
  | none => rfl
  | some fs =>
    simp only [check_impact]
    split
    · rfl
    · cases py_min (fun x => x.2) (nearby_quakes D lat lon fs) with
      | none => rfl
      | some p =>
        obtain ⟨quake, dist⟩ := p
        dsimp only
        rw [hscore]

/-- C8 witness: the category castle is unrecognized and behaves as house on
a concrete feed. -/
theorem c8_witness :
    (("castle" : String) ≠ "house" ∧ ("castle" : String) ≠ "apartment" ∧
      ("castle" : String) ≠ "old_building") ∧
    impact_score 5 3 "castle" = impact_score 5 3 "house" ∧
    check_impact dist_zero (some [f_demo]) 0 0 "castle" =
      check_impact dist_zero (some [f_demo]) 0 0 "house" := by
  have h := c8_building_fallback dist_zero (some [f_demo]) 0 0 5 3 "castle"
    (by decide) (by decide) (by decide)
  exact ⟨⟨by decide, by decide, by decide⟩, h.1, h.2⟩

/-- C10: for magnitude at least 3 the score is at least 12 for every
distance and building category, hence strictly positive, and the
very-unlikely confidence statement (reserved for scores below 10) can never
accompany it. -/
theorem c10_min_score (m d : ℚ) (b : String) (h : 3 ≤ m) :
    12 ≤ impact_score m d b ∧ 0 < impact_score m d b ∧
      confidence_statement (impact_score m d b) ≠
        "You are very unlikely to notice any earthquake activity." := by
  have h12 : (12 : ℚ) ≤ impact_score m d b := by
    simp only [impact_score]
    apply le_round1_of_le
    split_ifs <;> linarith
  refine ⟨h12, by linarith, ?_⟩
  unfold confidence_statement
  rw [if_neg (by linarith : ¬ impact_score m d b < 10)]
  split
  · decide
  · decide

/-- C10 witness: magnitude 5 at the epicentre in a house scores 30. -/
theorem c10_witness :
    (3 : ℚ) ≤ 5 ∧ (12 ≤ impact_score 5 0 "house" ∧ 0 < impact_score 5 0 "house" ∧
      confidence_statement (impact_score 5 0 "house") ≠
        "You are very unlikely to notice any earthquake activity.") :=
  ⟨by norm_num, c10_min_score 5 0 "house" (by norm_num)⟩

/-- C3: an event and distance pair is a candidate if and only if the event
is in the feed, its magnitude is non-null and at least 3, and its geodesic
distance from the query point is strictly below 1000 km; a null-magnitude
event is silently excluded. -/
theorem c3_candidate_iff (D : ℚ × ℚ → ℚ × ℚ → ℚ) (lat lon : ℚ)
    (fs : List Feature) (q : Feature) (d : ℚ) :
    ((q, d) ∈ nearby_quakes D lat lon fs ↔
      q ∈ fs ∧ ∃ m, q.mag = some m ∧ 3 ≤ m ∧
        d = D (lat, lon) (q.lat, q.lon) ∧ d < 1000) ∧
    (q.mag = none → (q, d) ∉ nearby_quakes D lat lon fs) := by
  refine ⟨mem_nearby_quakes, fun hn hmem => ?_⟩
  obtain ⟨-, m, hm, -⟩ := mem_nearby_quakes.mp hmem
  rw [hn] at hm
  exact Option.noConfusion hm

/-- C3 witness: a null-magnitude feature is excluded while a magnitude-5
feature at distance 0 is a candidate. -/
theorem c3_witness :
    (f_null, 0) ∉ nearby_quakes dist_zero 0 0 [f_null] ∧
    (f_demo, 0) ∈ nearby_quakes dist_zero 0 0 [f_demo] := by
  constructor
  · exact (c3_candidate_iff dist_zero 0 0 [f_null] f_null 0).2 rfl
  · exact (c3_candidate_iff dist_zero 0 0 [f_demo] f_demo 0).1.mpr
      ⟨by simp, 5, rfl, by norm_num, rfl, by norm_num⟩

/-- C4: on a non-empty candidate list the selection of main.py line 131
returns a candidate of minimum distance, and every candidate strictly
before it in iteration order has strictly greater distance, so ties keep
the first occurrence. -/
theorem c4_min_selection (cands : List (Feature × ℚ)) (h : cands ≠ []) :
    ∃ pre c post, cands = pre ++ c :: post ∧
      py_min (fun x => x.2) cands = some c ∧
      (∀ y ∈ cands, c.2 ≤ y.2) ∧ ∀ y ∈ pre, c.2 < y.2 := by
  cases cands with
  | nil => exact absurd rfl h
  | cons a as =>
    rcases min_by_key_split (fun x => x.2) a as with
      ⟨heq, hall⟩ | ⟨l1, x, l2, hsplit, heq, hlt, hall, hpre⟩
    · refine ⟨[], a, as, by simp, ?_, ?_, by simp⟩
      · rw [py_min, heq]
      · intro y hy
        rcases List.mem_cons.mp hy with hy | hy
        · exact hy ▸ le_refl _
        · exact hall y hy
    · refine ⟨a :: l1, x, l2, by rw [hsplit]; simp, ?_, ?_, ?_⟩
      · rw [py_min, heq]
      · intro y hy
        rcases List.mem_cons.mp hy with hy | hy
        · exact hy ▸ le_of_lt hlt
        · exact hall y hy
      · intro y hy
        rcases List.mem_cons.mp hy with hy | hy
        · exact hy ▸ hlt
        · exact hpre y hy

/-- C4 witness: among candidates at 800, 50 and 950 km the 50 km one is
selected. -/
theorem c4_witness :
    ([(f_demo, 800), (f_null, 50), (f_demo, 950)] : List (Feature × ℚ)) ≠ [] ∧
    py_min (fun x => x.2) [(f_demo, (800 : ℚ)), (f_null, 50), (f_demo, 950)] =
      some (f_null, 50) ∧
    (∃ pre c post,
      ([(f_demo, 800), (f_null, 50), (f_demo, 950)] : List (Feature × ℚ)) =
        pre ++ c :: post ∧
      py_min (fun x => x.2) [(f_demo, (800 : ℚ)), (f_null, 50), (f_demo, 950)] = some c ∧
      (∀ y ∈ ([(f_demo, 800), (f_null, 50), (f_demo, 950)] : List (Feature × ℚ)),
        c.2 ≤ y.2) ∧
      ∀ y ∈ pre, c.2 < y.2) := by
  refine ⟨by simp, ?_, c4_min_selection _ (by simp)⟩
  norm_num [py_min, min_by_key]

/-- C5: a failed fetch yields the explicit fetch-error payload, an empty
feed yields the distinct no-data error payload, and a non-empty feed with
no eligible candidate yields the normal Branch A payload, which is not an
error response; all three are values of the total function check_impact. -/
theorem c5_outcomes (D : ℚ × ℚ → ℚ × ℚ → ℚ) (lat lon : ℚ) (b : String)
    (fs : List Feature) (hne : fs ≠ []) (hno : nearby_quakes D lat lon fs = []) :
    check_impact D none lat lon b = .error "Cannot fetch earthquake data." ∧
    check_impact D (some []) lat lon b = .error "No earthquake data available" ∧
    check_impact D (some []) lat lon b ≠ check_impact D none lat lon b ∧
    check_impact D (some fs) lat lon b = .branchA no_quake_info ∧
    ∀ msg, Response.branchA no_quake_info ≠ .error msg := by
  obtain ⟨a, as, rfl⟩ : ∃ a as, fs = a :: as := by
    cases fs with
    | nil => exact absurd rfl hne
    | cons a as => exact ⟨a, as, rfl⟩
  refine ⟨rfl, rfl, ?_, ?_, fun msg h => Response.noConfusion h⟩
  · intro h
    injection h with h'
    exact absurd h' (by decide)
  · simp only [check_impact, List.isEmpty_cons, Bool.false_eq_true, if_false, hno, py_min]

/-- C5 witness: the three outcomes on a concrete distance function and the
one-null-feature feed. -/
theorem c5_witness :
    (([f_null] : List Feature) ≠ [] ∧ nearby_quakes dist_zero 0 0 [f_null] = []) ∧
    (check_impact dist_zero none 0 0 "house" = .error "Cannot fetch earthquake data." ∧
      check_impact dist_zero (some []) 0 0 "house" = .error "No earthquake data available" ∧
      check_impact dist_zero (some []) 0 0 "house" ≠ check_impact dist_zero none 0 0 "house" ∧
      check_impact dist_zero (some [f_null]) 0 0 "house" = .branchA no_quake_info ∧
      ∀ msg, Response.branchA no_quake_info ≠ .error msg) :=
  ⟨⟨by simp, rfl⟩, c5_outcomes dist_zero 0 0 "house" [f_null] (by simp) rfl⟩

/-- C6: counterexample.  The app registers exactly one route, GET /impact;
no second (listing) operation exists in main.py. -/
theorem c6_counterexample :
    app_routes.length = 1 ∧
    (app_routes.filter (fun r => r.2 ≠ "/impact")).length = 0 := by
  constructor
  · rfl
  · simp [app_routes]

/-- C6 (amended): the only inbound operation of the program is the GET
/impact query; there is no listing operation. -/
theorem c6_single_route :
    app_routes = [("GET", "/impact")] ∧ ∀ r ∈ app_routes, r.2 = "/impact" := by
  refine ⟨rfl, ?_⟩
  intro r hr
  simp only [app_routes, List.mem_singleton] at hr
  rw [hr]

/-- C6 witness: the /impact route is the registered one. -/
theorem c6_witness :
    ("GET", "/impact") ∈ app_routes ∧ ("GET", "/impact").2 = "/impact" :=
  ⟨by simp [app_routes], c6_single_route.2 _ (by simp [app_routes])⟩

/-- C9: counterexample.  With every pair of points 999.96 km apart, a
magnitude-5 quake is eligible (999.96 < 1000) but the reported distance_km
field is round1 999.96 = 1000.0, which is not strictly below 1000. -/
theorem c9_counterexample :
    reported_distance (check_impact dist_far (some [f_demo]) 0 0 "house") = some 1000 ∧
    ¬ ((1000 : ℚ) < 1000) := by
  constructor
  · have h1 : nearby_quakes dist_far 0 0 [f_demo] = [(f_demo, 999.96)] := by
      simp only [nearby_quakes, List.filterMap_cons, List.filterMap_nil, dist_far, f_demo]
      norm_num
    simp only [check_impact, List.isEmpty_cons, Bool.false_eq_true, if_false, h1, py_min,
      min_by_key, reported_distance]
    norm_num [round1, round_half_even]
  · norm_num

/-- C9 (amended): every Branch B response reports a magnitude of at least 3,
a non-negative depth_km, and a distance_km of at most 1000 (the unrounded
selected distance is strictly below 1000, but rounding to one decimal can
report exactly 1000.0). -/
theorem c9_branchB_invariants (D : ℚ × ℚ → ℚ × ℚ → ℚ)
    (fetched : Option (List Feature)) (lat lon : ℚ) (b : String) (info : QuakeInfo)
    (h : check_impact D fetched lat lon b = .branchB info) :
    (∃ m, info.magnitude = some m ∧ 3 ≤ m) ∧
    0 ≤ info.depth_km ∧ info.distance_km ≤ 1000 := by
  cases fetched with
  | none => exact Response.noConfusion h
  | some fs =>
    simp only [check_impact] at h
    by_cases he : fs.isEmpty
    · rw [if_pos he] at h
      exact Response.noConfusion h
    · rw [if_neg he] at h
      cases hmin : py_min (fun x => x.2) (nearby_quakes D lat lon fs) with
      | none =>
        rw [hmin] at h
        exact Response.noConfusion h
      | some p =>
        obtain ⟨quake, dist⟩ := p
        rw [hmin] at h
        dsimp only at h
        injection h with h'
        subst h'
        obtain ⟨-, m, hm, h3, -, hlt⟩ := mem_nearby_quakes.mp (py_min_mem hmin)
        refine ⟨⟨m, hm, h3⟩, abs_nonneg _, ?_⟩
        have hle := round1_le (x := dist) (n := 1000) (by exact_mod_cast hlt)
        exact_mod_cast hle

/-- C9 witness: the Branch B invariants hold on a concrete response. -/
theorem c9_witness :
    check_impact dist_zero (some [f_demo]) 0 0 "house" = .branchB info_demo ∧
    ((∃ m, info_demo.magnitude = some m ∧ 3 ≤ m) ∧
      0 ≤ info_demo.depth_km ∧ info_demo.distance_km ≤ 1000) := by
  have heq : check_impact dist_zero (some [f_demo]) 0 0 "house" = .branchB info_demo := by
    have h1 : nearby_quakes dist_zero 0 0 [f_demo] = [(f_demo, 0)] := by
      simp only [nearby_quakes, List.filterMap_cons, List.filterMap_nil, dist_zero, f_demo]
      norm_num
    have hscore : impact_score (f_demo.mag.getD 0) 0 "house" = 30 := by
      norm_num [impact_score, round1, round_half_even, f_demo]
    simp only [check_impact, List.isEmpty_cons, Bool.false_eq_true, if_false, h1, py_min,
      min_by_key, hscore]
    norm_num [info_demo, f_demo, round1, round_half_even, impact_level, felt_intensity,
      confidence_statement]
  exact ⟨heq, c9_branchB_invariants dist_zero (some [f_demo]) 0 0 "house" info_demo heq⟩
